import Mathlib

/-
  Verification of the flatbuffers-build compilation driver (src/lib.rs).

  The driver is embedded shallowly: the process environment, the external
  process runner and the filesystem are explicit parameters, and `compile`
  returns, next to its result, a trace of the observable effects it
  performed (processes spawned, lines printed, filesystem actions).
-/

namespace FlatbuffersBuild

/-- Byte-level operations of the Rust code, modelled over the character
list of a Lean string. -/
def strStartsWith (s p : String) : Bool := p.data.isPrefixOf s.data

/-- Mirrors a Rust byte-slice `s[n..]` where the first `n` bytes are known
to be ASCII. -/
def strDrop (s : String) (n : Nat) : String := String.mk (s.data.drop n)

/-- Mirrors Rust `str::trim_end`: drop trailing whitespace. -/
def strTrimEnd (s : String) : String :=
  String.mk ((s.data.reverse.dropWhile Char.isWhitespace).reverse)

/-- Substring containment, used to state facts about error messages. -/
def strContains (hay needle : String) : Bool :=
  (List.range (hay.data.length + 1)).any fun i => needle.data.isPrefixOf (hay.data.drop i)

/-- Opaque stand-in for `std::io::Error`. -/
abbrev IoError := String

/-- Mirrors `const FLATC_VERSION_PREFIX: &str` of src/lib.rs. -/
def FLATC_VERSION_PREFIX : String := "flatc version "

/-- Mirrors `pub const SUPPORTED_FLATC_VERSION: &str` of src/lib.rs. -/
def SUPPORTED_FLATC_VERSION : String := "24.3.25"

/-- Mirrors `enum Error` of src/lib.rs. -/
inductive Error where
  | FlatcErrorCode (status_code : Option Int) (stdout : String) (stderr : String)
  | InvalidFlatcOutput (stdout : String)
  | UnsupportedFlatcVersion (version : String)
  | FlatcSpawnFailure (e : IoError)
  | OutputDirNotSet
  | SymlinkCreationFailure (e : IoError)
  deriving DecidableEq

/-- Rust `Debug` rendering of an `Option<i32>` status code. -/
def optionIntDebug : Option Int → String
  | some c => "Some(" ++ toString c ++ ")"
  | none => "None"

/-- Mirrors the `thiserror` display strings attached to `enum Error`. -/
def Error.message : Error → String
  | .FlatcErrorCode c out err =>
      "flatc exited unexpectedly with status code " ++ optionIntDebug c
        ++ "\n-- stdout:\n" ++ out ++ "\n-- stderr:\n" ++ err ++ "\n"
  | .InvalidFlatcOutput s => "flatc returned invalid output for --version: " ++ s
  | .UnsupportedFlatcVersion v =>
      "flatc version \x27" ++ v
        ++ "\x27 is unsupported by this version of the library. Please match your library with your flatc version"
  | .FlatcSpawnFailure e => "flatc failed to spawn: " ++ e
  | .OutputDirNotSet =>
      "output directory was not set. Either call .set_output_path() or set the `OUT_DIR` env var"
  | .SymlinkCreationFailure e => "failed to create symlink path requested: " ++ e

/-- Mirrors `struct ProgramOutput` of src/lib.rs. -/
structure ProgramOutput where
  stdout : String
  stderr : String
  deriving DecidableEq

/-- Outcome of a spawned process that ran to completion: its exit status
(`none` when terminated by a signal, mirroring `ExitStatus::code`) and its
captured output streams. -/
structure ProcOutput where
  code : Option Int
  stdout : String
  stderr : String
  deriving DecidableEq

/-- Result of attempting to spawn a process: either the spawn itself
failed, or the process ran to completion. -/
inductive SpawnResult where
  | spawnError (e : IoError)
  | ran (o : ProcOutput)
  deriving DecidableEq

/-- The external process runner: the behaviour of
`Command::new(compiler).args(args).output()`. -/
abbrev Runner := String → List String → SpawnResult

/-- Mirrors `ExitStatus::success()` on Unix: true exactly when the exit
code is zero. -/
def statusSuccess (o : ProcOutput) : Bool := o.code = some 0

/-- Mirrors `fn run_flatc` of src/lib.rs. -/
def run_flatc (run : Runner) (compiler : String) (args : List String) :
    Except Error ProgramOutput :=
  match run compiler args with
  | .spawnError e => .error (.FlatcSpawnFailure e)
  | .ran o =>
    if statusSuccess o then .ok ⟨o.stdout, o.stderr⟩
    else .error (.FlatcErrorCode o.code o.stdout o.stderr)

/-- The stdout-parsing body of `fn confirm_flatc_version` of src/lib.rs. -/
def check_version_stdout (stdout : String) : Except Error Unit :=
  if strStartsWith stdout FLATC_VERSION_PREFIX then
    if strTrimEnd (strDrop stdout FLATC_VERSION_PREFIX.length) = SUPPORTED_FLATC_VERSION then
      .ok ()
    else
      .error (.UnsupportedFlatcVersion (strTrimEnd (strDrop stdout FLATC_VERSION_PREFIX.length)))
  else .error (.InvalidFlatcOutput stdout)

/-- Mirrors `fn confirm_flatc_version` of src/lib.rs. -/
def confirm_flatc_version (run : Runner) (compiler : String) : Except Error Unit :=
  match run_flatc run compiler ["--version"] with
  | .error e => .error e
  | .ok output => check_version_stdout output.stdout

/-- What the filesystem holds at the symlink path: nothing, a symbolic
link (whose target may or may not exist), or some other entry. -/
inductive FsEntry where
  | missing
  | symlinkTo (target : String) (targetExists : Bool)
  | other
  deriving DecidableEq

/-- Mirrors `Path::exists`, which follows symbolic links: a dangling link
reports false. -/
def fsExists : FsEntry → Bool
  | .missing => false
  | .symlinkTo _ te => te
  | .other => true

/-- Filesystem state at the symlink path, with fault injection for the two
operations the driver performs on it. -/
structure Fs where
  entry : FsEntry
  removeError : Option IoError
  symlinkError : Option IoError
  deriving DecidableEq

/-- Observable filesystem actions attempted by the driver. -/
inductive FsAction where
  | removeFile (path : String)
  | createSymlink (original : String) (path : String)
  deriving DecidableEq

/-- The OS error `symlink(2)` reports when an entry already occupies the
link path (it never follows an existing link, dangling or not). -/
def EEXIST : IoError := "EEXIST"

/-- Mirrors `std::fs::remove_file` at the modelled path. -/
def removeFileOp (fs : Fs) : Except IoError Fs :=
  match fs.removeError with
  | some e => .error e
  | none => .ok { fs with entry := .missing }

/-- Mirrors `std::os::unix::fs::symlink original path`: fails with
`EEXIST` when any entry (a dangling link included) occupies the path. -/
def symlinkOp (fs : Fs) (original : String) : Except IoError Fs :=
  match fs.entry with
  | .missing =>
    match fs.symlinkError with
    | some e => .error e
    | none => .ok { fs with entry := .symlinkTo original true }
  | _ => .error EEXIST

/-- Mirrors `fn generate_symlink` of src/lib.rs, returning the result and
the list of filesystem actions attempted. -/
def generate_symlink (fs : Fs) (symlink_path output_path : String) :
    Except Error Fs × List FsAction :=
  if fsExists fs.entry then
    match removeFileOp fs with
    | .error e => (.error (.SymlinkCreationFailure e), [.removeFile symlink_path])
    | .ok fs1 =>
      match symlinkOp fs1 output_path with
      | .error e =>
          (.error (.SymlinkCreationFailure e),
           [.removeFile symlink_path, .createSymlink output_path symlink_path])
      | .ok fs2 =>
          (.ok fs2, [.removeFile symlink_path, .createSymlink output_path symlink_path])
  else
    match symlinkOp fs output_path with
    | .error e => (.error (.SymlinkCreationFailure e), [.createSymlink output_path symlink_path])
    | .ok fs2 => (.ok fs2, [.createSymlink output_path symlink_path])

/-- Mirrors `struct BuilderOptions` of src/lib.rs. -/
structure BuilderOptions where
  files : List String
  compiler : Option String
  output_path : Option String
  symlink_path : Option String
  supress_buildrs_directives : Bool
  deriving DecidableEq

/-- Mirrors `BuilderOptions::new_with_files`. -/
def BuilderOptions.new_with_files (files : List String) : BuilderOptions :=
  ⟨files, none, none, none, false⟩

/-- Mirrors `BuilderOptions::set_compiler`. -/
def BuilderOptions.set_compiler (b : BuilderOptions) (compiler : String) : BuilderOptions :=
  { b with compiler := some compiler }

/-- Mirrors `BuilderOptions::set_output_path`. -/
def BuilderOptions.set_output_path (b : BuilderOptions) (output_path : String) : BuilderOptions :=
  { b with output_path := some output_path }

/-- Mirrors `BuilderOptions::set_symlink_directory`. -/
def BuilderOptions.set_symlink_directory (b : BuilderOptions) (symlink_path : String) :
    BuilderOptions :=
  { b with symlink_path := some symlink_path }

/-- The process environment as the driver reads it: `FLATC_PATH` embedded
at library build time (`option_env`), `FLATC_PATH` read at run time, and
`OUT_DIR` read at run time. -/
structure Env where
  flatc_build_path : Option String
  flatc_path : Option String
  out_dir : Option String
  deriving DecidableEq

/-- Mirrors the compiler-resolution expression of `fn compile`
(src/lib.rs lines 265-271): the explicit override, else the build-time
`FLATC_PATH` constant, else the run-time `FLATC_PATH` variable, else the
plain name `flatc`. -/
def resolve_compiler (env : Env) (compiler : Option String) : String :=
  match compiler with
  | some c => c
  | none =>
    match env.flatc_build_path with
    | some build_flatc => build_flatc
    | none => env.flatc_path.getD "flatc"

/-- Mirrors the output-path resolution of `fn compile` (src/lib.rs lines
272-282): the explicit override, else `OUT_DIR` with `/flatbuffers`
appended, else the `OutputDirNotSet` error. -/
def resolve_output_path (env : Env) (output_path : Option String) : Except Error String :=
  match output_path with
  | some p => .ok p
  | none =>
    match env.out_dir with
    | some s => .ok (s ++ "/flatbuffers")
    | none => .error .OutputDirNotSet

/-- The argument list of the generation invocation built by `fn compile`
(src/lib.rs lines 286-292). -/
def genArgs (output_path : String) (files : List String) : List String :=
  ["--rust", "--rust-module-root-file", "-o", output_path] ++ files

/-- One `cargo::rerun-if-changed` directive line. -/
def rerunLine (p : String) : String := "cargo::rerun-if-changed=" ++ p

/-- The observable effects of one `compile` call: processes spawned (in
order, with their argument lists), lines printed to stdout, and
filesystem actions attempted. -/
structure Trace where
  spawned : List (String × List String)
  printed : List String
  fsActions : List FsAction
  deriving DecidableEq

/-- The ambient world a `compile` call runs against. -/
structure World where
  env : Env
  run : Runner
  fs : Fs

/-- Mirrors `fn compile` of src/lib.rs, step by step: resolve the
compiler, resolve the output path, query and check the version, run the
generation invocation, refresh the symlink when configured, and print the
change-tracking directives unless suppressed. -/
def compile (w : World) (b : BuilderOptions) : Except Error Unit × Trace :=
  match resolve_output_path w.env b.output_path with
  | .error e => (.error e, ⟨[], [], []⟩)
  | .ok output_path =>
    match run_flatc w.run (resolve_compiler w.env b.compiler) ["--version"] with
    | .error e => (.error e, ⟨[(resolve_compiler w.env b.compiler, ["--version"])], [], []⟩)
    | .ok verOut =>
      match check_version_stdout verOut.stdout with
      | .error e => (.error e, ⟨[(resolve_compiler w.env b.compiler, ["--version"])], [], []⟩)
      | .ok _ =>
        match run_flatc w.run (resolve_compiler w.env b.compiler) (genArgs output_path b.files) with
        | .error e =>
            (.error e,
             ⟨[(resolve_compiler w.env b.compiler, ["--version"]),
               (resolve_compiler w.env b.compiler, genArgs output_path b.files)], [], []⟩)
        | .ok _ =>
          match b.symlink_path with
          | some symlink_path =>
            match generate_symlink w.fs symlink_path output_path with
            | (.error e, acts) =>
                (.error e,
                 ⟨[(resolve_compiler w.env b.compiler, ["--version"]),
                   (resolve_compiler w.env b.compiler, genArgs output_path b.files)], [], acts⟩)
            | (.ok _, acts) =>
                (.ok (),
                 ⟨[(resolve_compiler w.env b.compiler, ["--version"]),
                   (resolve_compiler w.env b.compiler, genArgs output_path b.files)],
                  (if b.supress_buildrs_directives then [] else [rerunLine symlink_path])
                    ++ (if b.supress_buildrs_directives then [] else b.files.map rerunLine),
                  acts⟩)
          | none =>
              (.ok (),
               ⟨[(resolve_compiler w.env b.compiler, ["--version"]),
                 (resolve_compiler w.env b.compiler, genArgs output_path b.files)],
                (if b.supress_buildrs_directives then [] else b.files.map rerunLine), []⟩)

instance {ε α : Type} [DecidableEq ε] [DecidableEq α] : DecidableEq (Except ε α) := fun a b =>
  match a, b with
  | .error e1, .error e2 => decidable_of_iff (e1 = e2) (by simp)
  | .error _, .ok _ => isFalse (by simp)
  | .ok _, .error _ => isFalse (by simp)
  | .ok a1, .ok a2 => decidable_of_iff (a1 = a2) (by simp)

/-- A stub runner: answers the version query with `verOut` and every other
invocation with `genOut`. -/
def stubRun (verOut genOut : ProcOutput) : Runner := fun _ args =>
  if args = ["--version"] then .ran verOut else .ran genOut

/-- The version-query output of a compiler of exactly the supported
version. -/
def goodVersionOutput : ProcOutput := ⟨some 0, "flatc version 24.3.25\n", ""⟩

/-- A successful, silent generation run. -/
def okGenOutput : ProcOutput := ⟨some 0, "", ""⟩

/-- A filesystem with nothing at the symlink path and no injected
faults. -/
def cleanFs : Fs := ⟨.missing, none, none⟩

/-- An environment with both a vendored build-time compiler path and a
run-time `FLATC_PATH` value. -/
def c1Env : Env := ⟨some "/vendored/flatc", some "/runtime/flatc", some "/out"⟩

/-- World for exercising compiler resolution. -/
def c1World : World := ⟨c1Env, stubRun goodVersionOutput okGenOutput, cleanFs⟩

/-- A minimal builder with one input file and no overrides. -/
def c1Builder : BuilderOptions := ⟨["a.fbs"], none, none, none, false⟩

/-- A runner whose version query exits nonzero with unparseable stdout. -/
def c2BadRun : Runner := fun _ _ => .ran ⟨some 1, "not a version", "boom"⟩

/-- A runner whose version query exits zero with unparseable stdout. -/
def c2OkBadRun : Runner := fun _ _ => .ran ⟨some 0, "not a version", ""⟩

/-- A runner reporting an unsupported version with a zero exit. -/
def c3Run : Runner := fun _ _ => .ran ⟨some 0, "flatc version 1.2.3\n", ""⟩

/-- World with a well-behaved compiler for argument-order checks. -/
def c4World : World := ⟨⟨none, none, none⟩, stubRun goodVersionOutput okGenOutput, cleanFs⟩

/-- Builder with the two example schemas and an explicit output path. -/
def c4Builder : BuilderOptions := ⟨["weapon.fbs", "example.fbs"], none, some "/out", none, false⟩

/-- World with no `OUT_DIR` in the environment. -/
def c5World : World := ⟨⟨none, none, none⟩, stubRun goodVersionOutput okGenOutput, cleanFs⟩

/-- Builder with neither an output override nor a symlink. -/
def c5Builder : BuilderOptions := ⟨["a.fbs"], none, none, none, false⟩

/-- World whose generation invocation exits with status 1. -/
def c6World : World :=
  ⟨⟨none, none, some "/out"⟩, stubRun goodVersionOutput ⟨some 1, "gen out", "gen err"⟩, cleanFs⟩

/-- Builder with a symlink configured, to observe that the failing
generation step reaches neither the symlink nor the directives. -/
def c6Builder : BuilderOptions := ⟨["a.fbs"], none, none, some "src/gen", false⟩

/-- World with `OUT_DIR` set, a well-behaved compiler and a clean
filesystem. -/
def c8World : World := ⟨⟨none, none, some "/outdir"⟩, stubRun goodVersionOutput okGenOutput, cleanFs⟩

/-- Builder with no output override and a symlink configured. -/
def c8Builder : BuilderOptions := ⟨["a.fbs"], none, none, some "src/gen", false⟩

/-- A dangling symbolic link at the symlink path. -/
def c9Fs : Fs := ⟨.symlinkTo "/old/out" false, none, none⟩

/-- World whose symlink path holds a dangling link. -/
def c9World : World := ⟨⟨none, none, some "/out"⟩, stubRun goodVersionOutput okGenOutput, c9Fs⟩

/-- Builder with a symlink configured. -/
def c9Builder : BuilderOptions := ⟨["a.fbs"], none, none, some "src/gen", false⟩

/-! ## Helper lemmas -/

theorem run_flatc_ran_ok (run : Runner) (compiler : String) (args : List String)
    (o : ProcOutput) (hrun : run compiler args = .ran o) (hc : o.code = some 0) :
    run_flatc run compiler args = .ok ⟨o.stdout, o.stderr⟩ := by
  simp [run_flatc, hrun, statusSuccess, hc]

theorem run_flatc_ran_fail (run : Runner) (compiler : String) (args : List String)
    (o : ProcOutput) (hrun : run compiler args = .ran o) (hc : o.code ≠ some 0) :
    run_flatc run compiler args = .error (.FlatcErrorCode o.code o.stdout o.stderr) := by
  simp [run_flatc, hrun, statusSuccess, hc]

theorem compile_spawned_cases (w : World) (b : BuilderOptions) :
    (compile w b).2.spawned = []
  ∨ (compile w b).2.spawned = [(resolve_compiler w.env b.compiler, ["--version"])]
  ∨ ∃ out, resolve_output_path w.env b.output_path = Except.ok out ∧
      (compile w b).2.spawned =
        [(resolve_compiler w.env b.compiler, ["--version"]),
         (resolve_compiler w.env b.compiler, genArgs out b.files)] := by
  rcases hro : resolve_output_path w.env b.output_path with e | out
  · left
    simp [compile, hro]
  · rcases hrf : run_flatc w.run (resolve_compiler w.env b.compiler) ["--version"] with e | vo
    · right; left
      simp [compile, hro, hrf]
    · rcases hcv : check_version_stdout vo.stdout with e | u
      · right; left
        simp [compile, hro, hrf, hcv]
      · rcases hrg : run_flatc w.run (resolve_compiler w.env b.compiler) (genArgs out b.files)
          with e | go
        · exact Or.inr (Or.inr ⟨out, rfl, by simp [compile, hro, hrf, hcv, hrg]⟩)
        · rcases hsp : b.symlink_path with _ | sp
          · exact Or.inr (Or.inr ⟨out, rfl, by simp [compile, hro, hrf, hcv, hrg, hsp]⟩)
          · rcases hgs : generate_symlink w.fs sp out with ⟨r, acts⟩
            rcases r with e | fs2
            · exact Or.inr (Or.inr ⟨out, rfl, by simp [compile, hro, hrf, hcv, hrg, hsp, hgs]⟩)
            · exact Or.inr (Or.inr ⟨out, rfl, by simp [compile, hro, hrf, hcv, hrg, hsp, hgs]⟩)

theorem compile_fsActions_cases (w : World) (b : BuilderOptions) :
    (compile w b).2.fsActions = []
  ∨ ∃ out sp, resolve_output_path w.env b.output_path = Except.ok out ∧
      b.symlink_path = some sp ∧
      (compile w b).2.fsActions = (generate_symlink w.fs sp out).2 := by
  rcases hro : resolve_output_path w.env b.output_path with e | out
  · left
    simp [compile, hro]
  · rcases hrf : run_flatc w.run (resolve_compiler w.env b.compiler) ["--version"] with e | vo
    · left
      simp [compile, hro, hrf]
    · rcases hcv : check_version_stdout vo.stdout with e | u
      · left
        simp [compile, hro, hrf, hcv]
      · rcases hrg : run_flatc w.run (resolve_compiler w.env b.compiler) (genArgs out b.files)
          with e | go
        · left
          simp [compile, hro, hrf, hcv, hrg]
        · rcases hsp : b.symlink_path with _ | sp
          · left
            simp [compile, hro, hrf, hcv, hrg, hsp]
          · rcases hgs : generate_symlink w.fs sp out with ⟨r, acts⟩
            rcases r with e | fs2
            · refine Or.inr ⟨out, sp, rfl, rfl, ?_⟩
              simp [compile, hro, hrf, hcv, hrg, hsp, hgs]
            · refine Or.inr ⟨out, sp, rfl, rfl, ?_⟩
              simp [compile, hro, hrf, hcv, hrg, hsp, hgs]

theorem generate_symlink_create_target (fs : Fs) (sp op t p : String)
    (h : FsAction.createSymlink t p ∈ (generate_symlink fs sp op).2) :
    t = op ∧ p = sp := by
  unfold generate_symlink at h
  split at h
  · split at h
    · simp at h
    · split at h <;> simp_all
  · split at h <;> simp_all

theorem strStartsWith_append (p x : String) : strStartsWith (p ++ x) p = true := by
  simp [strStartsWith, String.data_append, List.isPrefixOf_iff_prefix, List.prefix_append]

theorem strDrop_append (p x : String) : strDrop (p ++ x) p.length = x := by
  show String.mk (((p ++ x).data).drop p.data.length) = x
  rw [String.data_append, List.drop_left]

theorem strContains_append (a v b : String) : strContains (a ++ v ++ b) v = true := by
  unfold strContains
  rw [List.any_eq_true]
  refine ⟨a.data.length, ?_, ?_⟩
  · rw [List.mem_range, String.data_append, String.data_append]
    simp only [List.length_append]
    omega
  · rw [String.data_append, String.data_append, List.append_assoc, List.drop_left,
      List.isPrefixOf_iff_prefix]
    exact List.prefix_append _ _

/-! ## Claim theorems -/

/-- C1 counterexample: with a vendored build-time compiler path embedded
and the run-time `FLATC_PATH` variable also set, `compile` spawns the
vendored path, not the run-time environment value — refuting the claimed
order in which the environment variable is consulted before the
build-time-embedded path. -/
theorem C1_counterexample :
    (compile c1World c1Builder).2.spawned.map Prod.fst
      = ["/vendored/flatc", "/vendored/flatc"]
  ∧ "/vendored/flatc" ≠ "/runtime/flatc" := by decide

/-- C1 (amended): every process `compile` spawns uses the resolved
compiler, and resolution order is: explicit override, else the
build-time-embedded `FLATC_PATH` (vendored) value, else the `FLATC_PATH`
environment variable read at run time, else the plain name `flatc`. -/
theorem C1_compiler_resolution (w : World) (b : BuilderOptions) (env : Env) :
    (∀ pr args, (pr, args) ∈ (compile w b).2.spawned → pr = resolve_compiler w.env b.compiler)
  ∧ (∀ c, resolve_compiler env (some c) = c)
  ∧ (∀ p, env.flatc_build_path = some p → resolve_compiler env none = p)
  ∧ (∀ q, env.flatc_build_path = none → env.flatc_path = some q →
      resolve_compiler env none = q)
  ∧ (env.flatc_build_path = none → env.flatc_path = none →
      resolve_compiler env none = "flatc") := by
  refine ⟨?_, ?_, ?_, ?_, ?_⟩
  · intro pr args hmem
    rcases compile_spawned_cases w b with h | h | ⟨out, -, h⟩
    · rw [h] at hmem
      simp at hmem
    · rw [h] at hmem
      simp at hmem
      exact hmem.1
    · rw [h] at hmem
      simp at hmem
      rcases hmem with ⟨h1, -⟩ | ⟨h1, -⟩ <;> exact h1
  · intro c
    rfl
  · intro p hp
    simp [resolve_compiler, hp]
  · intro q hb hq
    simp [resolve_compiler, hb, hq]
  · intro hb hq
    simp [resolve_compiler, hb, hq]

/-- Witness for C1: the vendored build-time path wins over the run-time
environment value. -/
theorem C1_compiler_resolution_witness :
    resolve_compiler ⟨some "/vendored/flatc", some "/runtime/flatc", none⟩ none
      = "/vendored/flatc" :=
  (C1_compiler_resolution c1World c1Builder
    ⟨some "/vendored/flatc", some "/runtime/flatc", none⟩).2.2.1 "/vendored/flatc" rfl

/-- C4: every invocation `compile` spawns other than the version query
carries exactly the Rust-output flag, the module-root flag, the
output-directory flag with the resolved directory, and then the input
files in exactly the caller-supplied order. -/
theorem C4_argument_order (w : World) (b : BuilderOptions) (pr : String) (args : List String)
    (hmem : (pr, args) ∈ (compile w b).2.spawned) (hne : args ≠ ["--version"]) :
    ∃ out, resolve_output_path w.env b.output_path = Except.ok out ∧
      args = ["--rust", "--rust-module-root-file", "-o", out] ++ b.files := by
  rcases compile_spawned_cases w b with h | h | ⟨out, hout, h⟩
  · rw [h] at hmem
    simp at hmem
  · rw [h] at hmem
    simp at hmem
    exact absurd hmem.2 hne
  · rw [h] at hmem
    simp at hmem
    rcases hmem with ⟨-, h2⟩ | ⟨-, h2⟩
    · exact absurd h2 hne
    · exact ⟨out, hout, by rw [h2]; rfl⟩

/-- Witness for C4: with inputs `weapon.fbs` then `example.fbs`, the
generation arguments list `weapon.fbs` before `example.fbs`. -/
theorem C4_argument_order_witness :
    ∃ out, resolve_output_path c4World.env c4Builder.output_path = Except.ok out ∧
      ["--rust", "--rust-module-root-file", "-o", "/out", "weapon.fbs", "example.fbs"]
        = ["--rust", "--rust-module-root-file", "-o", out] ++ c4Builder.files :=
  C4_argument_order c4World c4Builder "flatc"
    ["--rust", "--rust-module-root-file", "-o", "/out", "weapon.fbs", "example.fbs"]
    (by decide) (by decide)

/-- C5: with no explicit output path and `OUT_DIR` unset, `compile` fails
with `OutputDirNotSet` and no process is spawned. -/
theorem C5_out_dir_not_set (w : World) (b : BuilderOptions)
    (h1 : b.output_path = none) (h2 : w.env.out_dir = none) :
    (compile w b).1 = Except.error Error.OutputDirNotSet
  ∧ (compile w b).2.spawned = [] := by
  have hro : resolve_output_path w.env b.output_path = Except.error Error.OutputDirNotSet := by
    simp [resolve_output_path, h1, h2]
  constructor <;> simp [compile, hro]

/-- Witness for C5. -/
theorem C5_out_dir_not_set_witness :
    (compile c5World c5Builder).1 = Except.error Error.OutputDirNotSet
  ∧ (compile c5World c5Builder).2.spawned = [] :=
  C5_out_dir_not_set c5World c5Builder rfl rfl

/-- C2 counterexample: a version query whose stdout lacks the fixed
prefix but which exits with status 1 fails with the non-zero-exit kind,
not with `InvalidFlatcOutput` — refuting the words "regardless of the
process's exit code". -/
theorem C2_counterexample :
    strStartsWith "not a version" FLATC_VERSION_PREFIX = false
  ∧ confirm_flatc_version c2BadRun "flatc"
      = Except.error (Error.FlatcErrorCode (some 1) "not a version" "boom")
  ∧ confirm_flatc_version c2BadRun "flatc"
      ≠ Except.error (Error.InvalidFlatcOutput "not a version") := by decide

/-- C2 (amended): when the version query runs to completion with stdout
not beginning with the fixed prefix, the check fails with
`InvalidFlatcOutput` carrying that stdout when the exit status is zero,
and with the non-zero-exit kind carrying status and both streams
otherwise. -/
theorem C2_invalid_output (run : Runner) (compiler : String) (o : ProcOutput)
    (hrun : run compiler ["--version"] = SpawnResult.ran o)
    (hpre : strStartsWith o.stdout FLATC_VERSION_PREFIX = false) :
    confirm_flatc_version run compiler =
      if o.code = some 0 then Except.error (Error.InvalidFlatcOutput o.stdout)
      else Except.error (Error.FlatcErrorCode o.code o.stdout o.stderr) := by
  by_cases hc : o.code = some 0
  · simp only [confirm_flatc_version,
      run_flatc_ran_ok run compiler ["--version"] o hrun hc, hc, if_true]
    simp [check_version_stdout, hpre]
  · simp only [confirm_flatc_version,
      run_flatc_ran_fail run compiler ["--version"] o hrun hc]
    simp [hc]

/-- Witness for C2. -/
theorem C2_invalid_output_witness :
    confirm_flatc_version c2OkBadRun "flatc" =
      if (some 0 : Option Int) = some 0
      then Except.error (Error.InvalidFlatcOutput "not a version")
      else Except.error (Error.FlatcErrorCode (some 0) "not a version" "") :=
  C2_invalid_output c2OkBadRun "flatc" ⟨some 0, "not a version", ""⟩ rfl (by decide)

/-- C3 counterexample: for reported version `1.2.3` the check fails with
`UnsupportedFlatcVersion "1.2.3"`, whose rendered message contains the
actual version but does not contain the expected supported version
`24.3.25` — refuting the words "contains both the expected (supported)
version string and the actual parsed version string". -/
theorem C3_counterexample :
    confirm_flatc_version c3Run "flatc"
      = Except.error (Error.UnsupportedFlatcVersion "1.2.3")
  ∧ strContains (Error.message (Error.UnsupportedFlatcVersion "1.2.3")) "1.2.3" = true
  ∧ strContains (Error.message (Error.UnsupportedFlatcVersion "1.2.3"))
      SUPPORTED_FLATC_VERSION = false := by decide

/-- C3 (amended): for every version query exiting zero with stdout of the
form "flatc version X" where X trimmed of trailing whitespace differs
from the supported constant, the check fails with the
unsupported-version kind carrying the trimmed X, and the rendered error
message contains the actual parsed version verbatim (but, per the
counterexample, not the expected one). -/
theorem C3_unsupported_version (run : Runner) (compiler x stderrS : String)
    (hrun : run compiler ["--version"]
      = SpawnResult.ran ⟨some 0, FLATC_VERSION_PREFIX ++ x, stderrS⟩)
    (hx : strTrimEnd x ≠ SUPPORTED_FLATC_VERSION) :
    confirm_flatc_version run compiler
      = Except.error (Error.UnsupportedFlatcVersion (strTrimEnd x))
  ∧ strContains (Error.message (Error.UnsupportedFlatcVersion (strTrimEnd x))) (strTrimEnd x)
      = true := by
  constructor
  · have h1 := run_flatc_ran_ok run compiler ["--version"] _ hrun rfl
    simp only [confirm_flatc_version, h1]
    simp only [check_version_stdout, strStartsWith_append, if_true]
    rw [strDrop_append]
    simp [hx]
  · exact strContains_append "flatc version \x27" (strTrimEnd x) _

/-- Witness for C3. -/
theorem C3_unsupported_version_witness :
    confirm_flatc_version c3Run "flatc"
      = Except.error (Error.UnsupportedFlatcVersion (strTrimEnd "1.2.3\n"))
  ∧ strContains (Error.message (Error.UnsupportedFlatcVersion (strTrimEnd "1.2.3\n")))
      (strTrimEnd "1.2.3\n") = true :=
  C3_unsupported_version c3Run "flatc" "1.2.3\n" "" (by decide) (by decide)

/-- C6: after a successful version check, a generation invocation that
exits with a nonzero (or signal-absent) status makes `compile` return the
non-zero-exit kind carrying the exit status and the exact captured stdout
and stderr, with no filesystem action performed and no directive
printed. -/
theorem C6_generation_failure (w : World) (b : BuilderOptions) (out vs ve so se : String)
    (c : Option Int)
    (hout : resolve_output_path w.env b.output_path = Except.ok out)
    (hver : w.run (resolve_compiler w.env b.compiler) ["--version"]
      = SpawnResult.ran ⟨some 0, vs, ve⟩)
    (hcheck : check_version_stdout vs = Except.ok ())
    (hgen : w.run (resolve_compiler w.env b.compiler) (genArgs out b.files)
      = SpawnResult.ran ⟨c, so, se⟩)
    (hc : c ≠ some 0) :
    (compile w b).1 = Except.error (Error.FlatcErrorCode c so se)
  ∧ (compile w b).2.printed = []
  ∧ (compile w b).2.fsActions = [] := by
  have h1 := run_flatc_ran_ok w.run (resolve_compiler w.env b.compiler) ["--version"] _ hver rfl
  have h2 := run_flatc_ran_fail w.run (resolve_compiler w.env b.compiler)
    (genArgs out b.files) _ hgen hc
  refine ⟨?_, ?_, ?_⟩ <;> simp [compile, hout, h1, hcheck, h2]

/-- Witness for C6. -/
theorem C6_generation_failure_witness :
    (compile c6World c6Builder).1
      = Except.error (Error.FlatcErrorCode (some 1) "gen out" "gen err")
  ∧ (compile c6World c6Builder).2.printed = []
  ∧ (compile c6World c6Builder).2.fsActions = [] :=
  C6_generation_failure c6World c6Builder "/out/flatbuffers" "flatc version 24.3.25\n" ""
    "gen out" "gen err" (some 1) (by decide) (by decide) (by decide) (by decide) (by decide)

/-- C7 counterexample: a removal failure and a creation failure with the
same underlying OS error return equal error values, while the action
traces show they failed at different sub-steps — refuting the words "the
two sub-steps are distinguishable from the returned error". -/
theorem C7_counterexample :
    (generate_symlink ⟨.other, some "EACCES", none⟩ "src/gen" "/out").1
      = Except.error (Error.SymlinkCreationFailure "EACCES")
  ∧ (generate_symlink ⟨.missing, none, some "EACCES"⟩ "src/gen" "/out").1
      = Except.error (Error.SymlinkCreationFailure "EACCES")
  ∧ (generate_symlink ⟨.other, some "EACCES", none⟩ "src/gen" "/out").2
      = [FsAction.removeFile "src/gen"]
  ∧ (generate_symlink ⟨.missing, none, some "EACCES"⟩ "src/gen" "/out").2
      = [FsAction.createSymlink "/out" "src/gen"] := by decide

/-- C7 (amended): a failure of removing the stale entry and a failure of
creating the new link are both wrapped under the one
symlink-creation-failure kind carrying the underlying OS error; the
returned error does not indicate which sub-step failed. -/
theorem C7_symlink_error_kind (fs : Fs) (sp op : String) (err : Error)
    (h : (generate_symlink fs sp op).1 = Except.error err) :
    ∃ e, err = Error.SymlinkCreationFailure e := by
  unfold generate_symlink at h
  split at h
  · split at h
    · simp at h
      exact ⟨_, h.symm⟩
    · split at h
      · simp at h
        exact ⟨_, h.symm⟩
      · simp at h
  · split at h
    · simp at h
      exact ⟨_, h.symm⟩
    · simp at h

/-- Witness for C7. -/
theorem C7_symlink_error_kind_witness :
    ∃ e, Error.SymlinkCreationFailure "EACCES" = Error.SymlinkCreationFailure e :=
  C7_symlink_error_kind ⟨.other, some "EACCES", none⟩ "src/gen" "/out"
    (Error.SymlinkCreationFailure "EACCES") (by decide)

/-- C8: with no explicit output path and `OUT_DIR` holding `s`, the
resolved output directory is exactly `s` with `/flatbuffers` appended;
every generation invocation receives it after the `-o` flag, and every
symlink created points at it. -/
theorem C8_out_dir_suffix (w : World) (b : BuilderOptions) (s : String)
    (hop : b.output_path = none) (hs : w.env.out_dir = some s) :
    resolve_output_path w.env b.output_path = Except.ok (s ++ "/flatbuffers")
  ∧ (∀ pr args, (pr, args) ∈ (compile w b).2.spawned → args ≠ ["--version"] →
      args = genArgs (s ++ "/flatbuffers") b.files)
  ∧ (∀ t p, FsAction.createSymlink t p ∈ (compile w b).2.fsActions →
      t = s ++ "/flatbuffers") := by
  have hro : resolve_output_path w.env b.output_path = Except.ok (s ++ "/flatbuffers") := by
    simp [resolve_output_path, hop, hs]
  refine ⟨hro, ?_, ?_⟩
  · intro pr args hmem hne
    rcases compile_spawned_cases w b with h | h | ⟨out, hout, h⟩
    · rw [h] at hmem
      simp at hmem
    · rw [h] at hmem
      simp at hmem
      exact absurd hmem.2 hne
    · rw [h] at hmem
      simp at hmem
      rcases hmem with ⟨-, h2⟩ | ⟨-, h2⟩
      · exact absurd h2 hne
      · rw [hro] at hout
        injection hout with h3
        rw [h2, ← h3]
  · intro t p hmem
    rcases compile_fsActions_cases w b with h | ⟨out, sp, hout, hsp, h⟩
    · rw [h] at hmem
      simp at hmem
    · rw [h] at hmem
      have hcs := generate_symlink_create_target w.fs sp out t p hmem
      rw [hro] at hout
      injection hout with h3
      rw [hcs.1, ← h3]

/-- Witness for C8. -/
theorem C8_out_dir_suffix_witness :
    resolve_output_path c8World.env c8Builder.output_path
      = Except.ok ("/outdir" ++ "/flatbuffers") :=
  (C8_out_dir_suffix c8World c8Builder "/outdir" rfl rfl).1

/-- C9: when the entry at the symlink path is a symbolic link whose
target does not exist, the existence check is false, the stale link is
not removed, link creation fails with `EEXIST`, and `compile` returns
the symlink-creation-failure kind. -/
theorem C9_dangling_symlink (w : World) (b : BuilderOptions) (t sp out vs ve so se : String)
    (re sye : Option IoError)
    (hfs : w.fs = ⟨.symlinkTo t false, re, sye⟩)
    (hsp : b.symlink_path = some sp)
    (hout : resolve_output_path w.env b.output_path = Except.ok out)
    (hver : w.run (resolve_compiler w.env b.compiler) ["--version"]
      = SpawnResult.ran ⟨some 0, vs, ve⟩)
    (hcheck : check_version_stdout vs = Except.ok ())
    (hgen : w.run (resolve_compiler w.env b.compiler) (genArgs out b.files)
      = SpawnResult.ran ⟨some 0, so, se⟩) :
    fsExists (FsEntry.symlinkTo t false) = false
  ∧ (compile w b).1 = Except.error (Error.SymlinkCreationFailure EEXIST)
  ∧ (compile w b).2.fsActions = [FsAction.createSymlink out sp] := by
  have h1 := run_flatc_ran_ok w.run (resolve_compiler w.env b.compiler) ["--version"] _ hver rfl
  have h2 := run_flatc_ran_ok w.run (resolve_compiler w.env b.compiler)
    (genArgs out b.files) _ hgen rfl
  have hgs : generate_symlink w.fs sp out
      = (Except.error (Error.SymlinkCreationFailure EEXIST), [FsAction.createSymlink out sp]) := by
    rw [hfs]
    simp [generate_symlink, fsExists, symlinkOp]
  refine ⟨rfl, ?_, ?_⟩ <;> simp [compile, hout, h1, hcheck, h2, hsp, hgs]

/-- Witness for C9. -/
theorem C9_dangling_symlink_witness :
    fsExists (FsEntry.symlinkTo "/old/out" false) = false
  ∧ (compile c9World c9Builder).1 = Except.error (Error.SymlinkCreationFailure EEXIST)
  ∧ (compile c9World c9Builder).2.fsActions
      = [FsAction.createSymlink "/out/flatbuffers" "src/gen"] :=
  C9_dangling_symlink c9World c9Builder "/old/out" "src/gen" "/out/flatbuffers"
    "flatc version 24.3.25\n" "" "" "" none none rfl rfl (by decide) (by decide)
    (by decide) (by decide)

/-- C10: setting the suppress-directives flag changes only the printed
change-tracking lines: the result, the spawned processes (compiler
resolution, version check and generation arguments included) and the
filesystem actions are identical with or without it, and with the flag
set nothing is printed at all. -/
theorem C10_suppress_frame (w : World) (b : BuilderOptions) :
    (compile w { b with supress_buildrs_directives := true }).1 = (compile w b).1
  ∧ (compile w { b with supress_buildrs_directives := true }).2.spawned
      = (compile w b).2.spawned
  ∧ (compile w { b with supress_buildrs_directives := true }).2.fsActions
      = (compile w b).2.fsActions
  ∧ (compile w { b with supress_buildrs_directives := true }).2.printed = [] := by
  obtain ⟨files, compiler, output_path, symlink_path, flag⟩ := b
  rcases hro : resolve_output_path w.env output_path with e | out
  · refine ⟨?_, ?_, ?_, ?_⟩ <;> simp [compile, hro]
  · rcases hrf : run_flatc w.run (resolve_compiler w.env compiler) ["--version"] with e | vo
    · refine ⟨?_, ?_, ?_, ?_⟩ <;> simp [compile, hro, hrf]
    · rcases hcv : check_version_stdout vo.stdout with e | u
      · refine ⟨?_, ?_, ?_, ?_⟩ <;> simp [compile, hro, hrf, hcv]
      · rcases hrg : run_flatc w.run (resolve_compiler w.env compiler) (genArgs out files)
          with e | go
        · refine ⟨?_, ?_, ?_, ?_⟩ <;> simp [compile, hro, hrf, hcv, hrg]
        · rcases symlink_path with _ | sp
          · refine ⟨?_, ?_, ?_, ?_⟩ <;> simp [compile, hro, hrf, hcv, hrg]
          · rcases hgs : generate_symlink w.fs sp out with ⟨r, acts⟩
            rcases r with e | fs2
            · refine ⟨?_, ?_, ?_, ?_⟩ <;> simp [compile, hro, hrf, hcv, hrg, hgs]
            · refine ⟨?_, ?_, ?_, ?_⟩ <;> simp [compile, hro, hrf, hcv, hrg, hgs]

end FlatbuffersBuild
